import Mathlib

/-!
PUBLISH packet codec of `packets/publish.go`.

A shallow embedding of the `Publish` variable header of the `packets` package:
`Publish.Unpack`, `Publish.Buffers`, `Publish.SetIdentifier` and
`Publish.ToControlPacket`, followed by theorems about them.

Conventions of the embedding.

* A Go `byte` is a `Nat` below 256, a `uint16` a `Nat` below 65536; 8-bit
  arithmetic is written with an explicit `% 256`.
* A Go `string` and a `[]byte` are the list of their bytes (`List Nat`); `len`
  is `List.length`.
* A `*bytes.Buffer` that is read from is the list of its unread bytes; every
  reader returns the bytes left unread next to its Go results.
* The pointer `*Properties` is represented by the value it points to, of an
  arbitrary type `Props`; its two methods are the fields of a
  `PropertiesCodec`, a parameter of the development.
-/

namespace packets

/-! ## Collaborators declared outside `publish.go` -/

/-- Modelled from the spec: the error taxonomy of decoding. `MalformedField` is
raised when a fixed or length-prefixed field cannot be read; `PropertiesError`
is the passthrough error of the properties collaborator, with an uninterpreted
code. -/
inductive Error where
  | MalformedField : Error
  | PropertiesError : Nat → Error
deriving DecidableEq, Repr

/-- Modelled from the spec: the packet type tag `PUBLISH`, a constant declared
outside `publish.go` (control packet type 3 of the protocol). No theorem depends
on its value. -/
def PUBLISH : Nat := 3

/-- Modelled from the spec: the constant `MQTT_5` naming the newer protocol
version, `"5"` in the wire layout table. -/
def MQTT_5 : Nat := 5

/-- Modelled from the spec: `readUint16`, the integer codec `readU16(cursor) → u16 | error`.
Reads a 16-bit big-endian integer; fails with `MalformedField` on insufficient
bytes. Go returns the zero value next to an error, and the failing byte reads
leave the buffer empty. -/
def readUint16 (b : List Nat) : Nat × Option Error × List Nat :=
  match b with
  | b1 :: b2 :: rest => (256 * b1 + b2, none, rest)
  | _ => (0, some Error.MalformedField, [])

/-- Modelled from the spec: `writeUint16`, the integer codec
`writeU16(u16, sink) → error`. Appends the two bytes of `u`, high byte first;
writing to an in-memory buffer reports no error. -/
def writeUint16 (u : Nat) (b : List Nat) : List Nat × Option Error :=
  (b ++ [u / 256 % 256, u % 256], none)

/-- Modelled from the spec: `readString`, the string codec
`readString(cursor) → string | error`. Reads a u16-length-prefixed string; fails
with `MalformedField` if insufficient bytes remain or the declared length exceeds
the remaining data. Go returns the empty string next to an error. -/
def readString (b : List Nat) : List Nat × Option Error × List Nat :=
  match readUint16 b with
  | (_, some e, r) => ([], some e, r)
  | (n, none, r) =>
    if r.length < n then ([], some Error.MalformedField, [])
    else (r.take n, none, r.drop n)

/-- Modelled from the spec: `writeString`, the string codec
`writeString(string, sink)`. Appends the u16 length of `s` (its length converted
to `uint16`) followed by the bytes of `s`. -/
def writeString (s : List Nat) (b : List Nat) : List Nat :=
  (writeUint16 (s.length % 65536) b).1 ++ s

/-- Digits of the variable-byte integer of `n`, least significant group of seven
bits first, the continuation bit `0x80` set on every byte but the last. `fuel`
bounds the number of bytes. -/
def encodeVBIAux : Nat → Nat → List Nat
  | 0, _ => []
  | fuel + 1, n =>
    if n / 128 > 0 then (n % 128 ||| 0x80) :: encodeVBIAux fuel (n / 128)
    else [n % 128]

/-- Modelled from the spec: `encodeVBIdirect`, the variable-byte-integer encoder
`encodeLength(n, sink)`. Appends the variable-byte integer of `length` to the
buffer. `length + 1` bytes of fuel always suffice. -/
def encodeVBIdirect (length : Nat) (b : List Nat) : List Nat :=
  b ++ encodeVBIAux (length + 1) length

/-- Modelled from the spec: the properties codec, keyed by packet type:
`Properties.encode(packetTypeTag) → bytes` is `Pack`, and
`Properties.decode(cursor, packetTypeTag) → error` is `Unpack`, which returns
the properties after the call, the error and the bytes left unread. -/
structure PropertiesCodec (Props : Type) where
  Pack : Props → Nat → List Nat
  Unpack : Props → List Nat → Nat → Props × Option Error × List Nat

/-- Value and unread bytes of the variable-byte integer at the head of a buffer,
reading at most `fuel` bytes. -/
def decodeVBIAux : Nat → List Nat → Option (Nat × List Nat)
  | 0, _ => none
  | _ + 1, [] => none
  | fuel + 1, d :: rest =>
    if d / 128 % 2 = 1 then
      match decodeVBIAux fuel rest with
      | some (n, r) => some (d % 128 + 128 * n, r)
      | none => none
    else some (d % 128, rest)

/-- Modelled from the spec: a properties codec for the wire layout
`[properties length: variable-byte integer] [properties block]`, which keeps the
block uninterpreted: the properties are the bytes of the block. It instantiates
the codec parameter at concrete inputs. -/
def rawBlockCodec : PropertiesCodec (List Nat) where
  Pack := fun props _ => props
  Unpack := fun props r _ =>
    match decodeVBIAux 4 r with
    | none => (props, some (Error.PropertiesError 0), [])
    | some (n, r) =>
      if r.length < n then (props, some (Error.PropertiesError 1), [])
      else (r.take n, none, r.drop n)

/-- A properties codec whose decoder rejects every input and clears the
properties, and whose encoder writes an empty block. It instantiates the codec
parameter where a theorem compares two codecs. -/
def rejectingCodec : PropertiesCodec (List Nat) where
  Pack := fun _ _ => []
  Unpack := fun _ _ _ => ([], some (Error.PropertiesError 2), [])

/-! ## `publish.go` -/

/-- The struct `Publish`: the variable header of a publish control packet. -/
structure Publish (Props : Type) where
  Payload : List Nat
  Topic : List Nat
  Properties : Props
  PacketID : Nat
  QoS : Nat
  Duplicate : Bool
  Retain : Bool
deriving DecidableEq, Repr

/-- The struct `FixedHeader`, with the two fields `ToControlPacket` sets. The Go
field `Type` is named `PacketType` here, `Type` being reserved. -/
structure FixedHeader where
  PacketType : Nat
  Flags : Nat
deriving DecidableEq, Repr

/-- The struct `ControlPacket`, with the two fields `ToControlPacket` sets. -/
structure ControlPacket (Props : Type) where
  FixedHeader : FixedHeader
  Content : Publish Props
deriving DecidableEq, Repr

/-- What a call of `Publish.Unpack` leaves behind: the receiver `p`, the unread
bytes `r` of the buffer, and the returned error `err` (`none` for `nil`). -/
structure UnpackResult (Props : Type) where
  p : Publish Props
  r : List Nat
  err : Option Error
deriving DecidableEq, Repr

/-- The packet of the examples: topic "a/b", payload 01 02 03, QoS 1, Duplicate
false, Retain true, identifier 0x1234, and an empty properties block. -/
def examplePublish : Publish (List Nat) :=
  { Payload := [1, 2, 3], Topic := [0x61, 0x2F, 0x62], Properties := [],
    PacketID := 0x1234, QoS := 1, Duplicate := false, Retain := true }

/-- A fresh receiver for `examplePublish`: every field zero but QoS, Duplicate and
Retain, which are preset from the fixed header. -/
def exampleReceiver : Publish (List Nat) :=
  { Payload := [], Topic := [], Properties := [], PacketID := 0,
    QoS := 1, Duplicate := false, Retain := true }

/-- A receiver with QoS 0 that already holds a packet identifier, a payload and
properties. -/
def exampleReceiverQoS0 : Publish (List Nat) :=
  { Payload := [9], Topic := [], Properties := [7, 7], PacketID := 77,
    QoS := 0, Duplicate := false, Retain := false }

/-- A packet with QoS 0 and therefore PacketID 0: topic "a", payload 07 08, an
empty properties block, Duplicate and Retain false. -/
def examplePublishQoS0 : Publish (List Nat) :=
  { Payload := [7, 8], Topic := [0x61], Properties := [], PacketID := 0,
    QoS := 0, Duplicate := false, Retain := false }

/-- The fresh receiver handed to `Unpack` when a packet is read: every field zero
(its properties being `props0`), except QoS, Duplicate and Retain, preset to the
values of `p` recovered from the fixed header. -/
def freshReceiver {Props : Type} (props0 : Props) (p : Publish Props) : Publish Props :=
  { Payload := [], Topic := [], Properties := props0, PacketID := 0,
    QoS := p.QoS, Duplicate := p.Duplicate, Retain := p.Retain }

/-- The segments as the specification words them: the length-prefixed topic
followed by the identifier only if QoS is positive as segment 1, the properties
block after its own variable-byte length as segment 2, the payload as
segment 3. -/
def specSegments {Props : Type} (codec : PropertiesCodec Props) (p : Publish Props) :
    List (List Nat) :=
  [[p.Topic.length / 256, p.Topic.length % 256] ++ p.Topic
      ++ (if p.QoS > 0 then [p.PacketID / 256, p.PacketID % 256] else []),
    encodeVBIAux ((codec.Pack p.Properties PUBLISH).length + 1)
        (codec.Pack p.Properties PUBLISH).length ++ codec.Pack p.Properties PUBLISH,
    p.Payload]

namespace Publish

variable {Props : Type}

/-- `func (p *Publish) SetIdentifier(packetID uint16)`. -/
def SetIdentifier (p : Publish Props) (packetID : Nat) : Publish Props :=
  { p with PacketID := packetID }

/-- `func (p *Publish) Unpack(r *bytes.Buffer, protocolVersion *byte) error`.
Each assignment to a field of the receiver happens before the error check that
follows it, as in the source. `ioutil.ReadAll` on an in-memory buffer returns
all unread bytes and no error. -/
def Unpack (codec : PropertiesCodec Props) (p : Publish Props) (r : List Nat)
    (protocolVersion : Nat) : UnpackResult Props :=
  match readString r with
  | (topic, some err, r) => { p := { p with Topic := topic }, r := r, err := some err }
  | (topic, none, r) =>
    let p := { p with Topic := topic }
    let afterID : UnpackResult Props :=
      if p.QoS > 0 then
        match readUint16 r with
        | (id, err, r) => { p := { p with PacketID := id }, r := r, err := err }
      else { p := p, r := r, err := none }
    match afterID with
    | { p := p, r := r, err := some err } => { p := p, r := r, err := some err }
    | { p := p, r := r, err := none } =>
      let afterProps : UnpackResult Props :=
        if protocolVersion = MQTT_5 then
          match codec.Unpack p.Properties r PUBLISH with
          | (props, err, r) => { p := { p with Properties := props }, r := r, err := err }
        else { p := p, r := r, err := none }
      match afterProps with
      | { p := p, r := r, err := some err } => { p := p, r := r, err := some err }
      | { p := p, r := r, err := none } =>
        { p := { p with Payload := r }, r := [], err := none }

/-- `func (p *Publish) Buffers() net.Buffers`: the three segments
`b.Bytes()`, `idvp` and `p.Payload`. -/
def Buffers (codec : PropertiesCodec Props) (p : Publish Props) : List (List Nat) :=
  let b : List Nat := []
  let b := writeString p.Topic b
  let b := if p.QoS > 0 then (writeUint16 p.PacketID b).1 else b
  let idvp := codec.Pack p.Properties PUBLISH
  let b := encodeVBIdirect idvp.length b
  [b, idvp, p.Payload]

/-- `func (p *Publish) ToControlPacket() *ControlPacket`. The flags `f` are a
`byte`: the shift is taken modulo 256. -/
def ToControlPacket (p : Publish Props) : ControlPacket Props :=
  let f := (p.QoS <<< 1) % 256
  let f := if p.Duplicate then f ||| (1 <<< 3) else f
  let f := if p.Retain then f ||| 1 else f
  { FixedHeader := { PacketType := PUBLISH, Flags := f }, Content := p }

end Publish

/-- The bytes put on the wire for a list of segments: their concatenation. -/
def wireBytes (segments : List (List Nat)) : List Nat :=
  segments.flatten

/-! ## Lemmas about the collaborators -/

theorem readUint16_cons (b1 b2 : Nat) (rest : List Nat) :
    readUint16 (b1 :: b2 :: rest) = (256 * b1 + b2, none, rest) := rfl

theorem readUint16_short (r : List Nat) (h : r.length < 2) :
    readUint16 r = (0, some Error.MalformedField, []) := by
  match r, h with
  | [], _ => rfl
  | [_], _ => rfl
  | _ :: _ :: _, h => exact absurd h (by simp)

theorem readUint16_writeUint16 (u : Nat) (hu : u < 65536) (rest : List Nat) :
    readUint16 ((writeUint16 u []).1 ++ rest) = (u, none, rest) := by
  have h : 256 * (u / 256 % 256) + u % 256 = u := by omega
  simp [writeUint16, readUint16, h]

theorem readString_writeString (s : List Nat) (hs : s.length ≤ 65535) (rest : List Nat) :
    readString (writeString s [] ++ rest) = (s, none, rest) := by
  have h1 : s.length % 65536 = s.length := Nat.mod_eq_of_lt (by omega)
  have h2 : 256 * (s.length / 256 % 256) + s.length % 256 = s.length := by omega
  simp [writeString, writeUint16, readString, readUint16, h1, h2]

theorem readString_length_bytes (t : List Nat) (rest : List Nat) :
    readString (t.length / 256 :: t.length % 256 :: (t ++ rest)) = (t, none, rest) := by
  have h : 256 * (t.length / 256) + t.length % 256 = t.length := by omega
  simp [readString, readUint16, h]

theorem readString_layout (r t r1 : List Nat) (h : readString r = (t, none, r1)) :
    ∃ b1 b2, r = b1 :: b2 :: (t ++ r1) ∧ t.length = 256 * b1 + b2 := by
  match r with
  | [] => simp [readString, readUint16] at h
  | [_] => simp [readString, readUint16] at h
  | b1 :: b2 :: rest =>
    simp only [readString, readUint16] at h
    split at h
    · simp at h
    · rename_i hlen
      simp only [Prod.mk.injEq, true_and] at h
      refine ⟨b1, b2, ?_, ?_⟩
      · rw [← h.1, ← h.2, List.take_append_drop]
      · rw [← h.1, List.length_take]; omega

theorem readString_truncated (r : List Nat)
    (h : r.length < 2 ∨ ∃ b1 b2 rest, r = b1 :: b2 :: rest ∧ rest.length < 256 * b1 + b2) :
    readString r = ([], some Error.MalformedField, []) := by
  rcases h with h | ⟨b1, b2, rest, hr, hlen⟩
  · simp [readString, readUint16_short r h]
  · subst hr
    simp [readString, readUint16, hlen]

theorem take_truncated (b1 b2 : Nat) (xs : List Nat) (k : Nat) (hk : k < 256 * b1 + b2) :
    (List.take k (b1 :: b2 :: xs)).length < 2 ∨
      ∃ c1 c2 rest, List.take k (b1 :: b2 :: xs) = c1 :: c2 :: rest ∧
        rest.length < 256 * c1 + c2 := by
  match k, hk with
  | 0, _ => left; simp
  | 1, _ => left; simp
  | k + 2, hk =>
    right
    refine ⟨b1, b2, List.take k xs, rfl, ?_⟩
    have := List.length_take_le k xs
    omega

theorem encodeVBIAux_ne_nil (fuel n : Nat) : encodeVBIAux (fuel + 1) n ≠ [] := by
  unfold encodeVBIAux
  split <;> simp

namespace Publish

variable {Props : Type}

/-! ## Lemmas about `Unpack`, one per path through the function -/

theorem Unpack_topic_err (codec : PropertiesCodec Props) (p : Publish Props)
    (r : List Nat) (v : Nat) (t r1 : List Nat) (e : Error)
    (h : readString r = (t, some e, r1)) :
    Unpack codec p r v = { p := { p with Topic := t }, r := r1, err := some e } := by
  simp [Unpack, h]

theorem Unpack_id_err (codec : PropertiesCodec Props) (p : Publish Props)
    (r : List Nat) (v : Nat) (t r1 r2 : List Nat) (id : Nat) (e : Error)
    (h : readString r = (t, none, r1)) (hq : p.QoS > 0)
    (hid : readUint16 r1 = (id, some e, r2)) :
    Unpack codec p r v =
      { p := { p with Topic := t, PacketID := id }, r := r2, err := some e } := by
  simp [Unpack, h, hq, hid]

theorem Unpack_older_qos0 (codec : PropertiesCodec Props) (p : Publish Props)
    (r : List Nat) (v : Nat) (t r1 : List Nat)
    (h : readString r = (t, none, r1)) (hq : p.QoS = 0) (hv : v ≠ MQTT_5) :
    Unpack codec p r v =
      { p := { p with Topic := t, Payload := r1 }, r := [], err := none } := by
  simp [Unpack, h, hq, hv]

theorem Unpack_older_qos_pos (codec : PropertiesCodec Props) (p : Publish Props)
    (r : List Nat) (v : Nat) (t r1 r2 : List Nat) (id : Nat)
    (h : readString r = (t, none, r1)) (hq : p.QoS > 0)
    (hid : readUint16 r1 = (id, none, r2)) (hv : v ≠ MQTT_5) :
    Unpack codec p r v =
      { p := { p with Topic := t, PacketID := id, Payload := r2 }, r := [], err := none } := by
  simp [Unpack, h, hq, hid, hv]

theorem Unpack_v5_qos0 (codec : PropertiesCodec Props) (p : Publish Props)
    (r : List Nat) (t r1 r2 : List Nat) (props : Props) (e : Option Error)
    (h : readString r = (t, none, r1)) (hq : p.QoS = 0)
    (hp : codec.Unpack p.Properties r1 PUBLISH = (props, e, r2)) :
    Unpack codec p r MQTT_5 =
      match e with
      | some err => { p := { p with Topic := t, Properties := props }, r := r2, err := some err }
      | none =>
        { p := { p with Topic := t, Properties := props, Payload := r2 }, r := [], err := none } := by
  cases e <;> simp [Unpack, h, hq, hp]

theorem Unpack_v5_qos_pos (codec : PropertiesCodec Props) (p : Publish Props)
    (r : List Nat) (t r1 r2 r3 : List Nat) (id : Nat) (props : Props) (e : Option Error)
    (h : readString r = (t, none, r1)) (hq : p.QoS > 0)
    (hid : readUint16 r1 = (id, none, r2))
    (hp : codec.Unpack p.Properties r2 PUBLISH = (props, e, r3)) :
    Unpack codec p r MQTT_5 =
      match e with
      | some err =>
        { p := { p with Topic := t, PacketID := id, Properties := props }, r := r3,
          err := some err }
      | none =>
        { p := { p with Topic := t, PacketID := id, Properties := props, Payload := r3 },
          r := [], err := none } := by
  cases e <;> simp [Unpack, h, hq, hid, hp]

/-! ## What `Unpack` leaves untouched -/

theorem Unpack_frame (codec : PropertiesCodec Props) (p : Publish Props)
    (r : List Nat) (v : Nat) :
    (Unpack codec p r v).p.QoS = p.QoS ∧
    (Unpack codec p r v).p.Duplicate = p.Duplicate ∧
    (Unpack codec p r v).p.Retain = p.Retain ∧
    ((Unpack codec p r v).err ≠ none → (Unpack codec p r v).p.Payload = p.Payload) ∧
    (p.QoS = 0 → (Unpack codec p r v).p.PacketID = p.PacketID) ∧
    (v ≠ MQTT_5 → (Unpack codec p r v).p.Properties = p.Properties) := by
  rcases hrs : readString r with ⟨t, _ | e, r1⟩
  · rcases Nat.eq_zero_or_pos p.QoS with hq | hq
    · by_cases hv : v = MQTT_5
      · subst hv
        rcases hc : codec.Unpack p.Properties r1 PUBLISH with ⟨props, _ | e, r3⟩
        · rw [Unpack_v5_qos0 codec p r t r1 r3 props none hrs hq hc]
          exact ⟨rfl, rfl, rfl, fun h => absurd rfl h, fun _ => rfl, fun h => absurd rfl h⟩
        · rw [Unpack_v5_qos0 codec p r t r1 r3 props (some e) hrs hq hc]
          exact ⟨rfl, rfl, rfl, fun _ => rfl, fun _ => rfl, fun h => absurd rfl h⟩
      · rw [Unpack_older_qos0 codec p r v t r1 hrs hq hv]
        exact ⟨rfl, rfl, rfl, fun h => absurd rfl h, fun _ => rfl, fun _ => rfl⟩
    · have hq0 : p.QoS ≠ 0 := by omega
      rcases hrd : readUint16 r1 with ⟨id, _ | e, r2⟩
      · by_cases hv : v = MQTT_5
        · subst hv
          rcases hc : codec.Unpack p.Properties r2 PUBLISH with ⟨props, _ | e, r3⟩
          · rw [Unpack_v5_qos_pos codec p r t r1 r2 r3 id props none hrs hq hrd hc]
            exact ⟨rfl, rfl, rfl, fun h => absurd rfl h, fun h => absurd h hq0,
              fun h => absurd rfl h⟩
          · rw [Unpack_v5_qos_pos codec p r t r1 r2 r3 id props (some e) hrs hq hrd hc]
            exact ⟨rfl, rfl, rfl, fun _ => rfl, fun h => absurd h hq0,
              fun h => absurd rfl h⟩
        · rw [Unpack_older_qos_pos codec p r v t r1 r2 id hrs hq hrd hv]
          exact ⟨rfl, rfl, rfl, fun h => absurd rfl h, fun h => absurd h hq0, fun _ => rfl⟩
      · rw [Unpack_id_err codec p r v t r1 r2 id e hrs hq hrd]
        exact ⟨rfl, rfl, rfl, fun _ => rfl, fun h => absurd h hq0, fun _ => rfl⟩
  · rw [Unpack_topic_err codec p r v t r1 e hrs]
    exact ⟨rfl, rfl, rfl, fun _ => rfl, fun _ => rfl, fun _ => rfl⟩

theorem Unpack_reads_id (codec : PropertiesCodec Props) (p : Publish Props)
    (r : List Nat) (v : Nat) (t r1 : List Nat)
    (hq : p.QoS > 0) (hrs : readString r = (t, none, r1)) :
    (Unpack codec p r v).p.PacketID = (readUint16 r1).1 := by
  rcases hrd : readUint16 r1 with ⟨id, _ | e, r2⟩
  · by_cases hv : v = MQTT_5
    · subst hv
      rcases hc : codec.Unpack p.Properties r2 PUBLISH with ⟨props, _ | e, r3⟩
      · rw [Unpack_v5_qos_pos codec p r t r1 r2 r3 id props none hrs hq hrd hc]
      · rw [Unpack_v5_qos_pos codec p r t r1 r2 r3 id props (some e) hrs hq hrd hc]
    · rw [Unpack_older_qos_pos codec p r v t r1 r2 id hrs hq hrd hv]
  · rw [Unpack_id_err codec p r v t r1 r2 id e hrs hq hrd]

/-! ## The segments of `Buffers` -/

theorem Buffers_eq (codec : PropertiesCodec Props) (p : Publish Props) :
    Buffers codec p =
      [[p.Topic.length % 65536 / 256 % 256, p.Topic.length % 65536 % 256] ++ p.Topic
          ++ (if p.QoS > 0 then [p.PacketID / 256 % 256, p.PacketID % 256] else [])
          ++ encodeVBIAux ((codec.Pack p.Properties PUBLISH).length + 1)
              (codec.Pack p.Properties PUBLISH).length,
        codec.Pack p.Properties PUBLISH,
        p.Payload] := by
  by_cases hq : p.QoS > 0 <;>
    simp [Buffers, writeString, writeUint16, encodeVBIdirect, hq]

theorem wireBytes_Buffers (codec : PropertiesCodec Props) (p : Publish Props)
    (ht : p.Topic.length ≤ 65535) (hid : p.PacketID < 65536) :
    wireBytes (Buffers codec p) =
      p.Topic.length / 256 :: p.Topic.length % 256 :: (p.Topic
        ++ ((if p.QoS > 0 then [p.PacketID / 256, p.PacketID % 256] else [])
        ++ (encodeVBIAux ((codec.Pack p.Properties PUBLISH).length + 1)
            (codec.Pack p.Properties PUBLISH).length
        ++ (codec.Pack p.Properties PUBLISH ++ p.Payload)))) := by
  have h1 : p.Topic.length % 65536 / 256 % 256 = p.Topic.length / 256 := by omega
  have h2 : p.Topic.length % 65536 % 256 = p.Topic.length % 256 := by omega
  have h3 : p.PacketID / 256 % 256 = p.PacketID / 256 := by omega
  rw [Buffers_eq, h1, h2, h3]
  simp [wireBytes]

/-! ## Theorems -/

/-- Counterexample to C1 as stated: under the older protocol version 4 the
encoding of the example packet (topic "a/b", payload 01 02 03, QoS 1, identifier
0x1234, empty properties) decodes without error on a fresh preset receiver, but
the length byte 00 of the properties block is read as payload: the payload is
00 01 02 03 and the receiver is not equal to the packet. -/
theorem C1_counterexample :
    (Unpack rawBlockCodec (freshReceiver [] examplePublish)
      (wireBytes (Buffers rawBlockCodec examplePublish)) 4).err = none ∧
    (Unpack rawBlockCodec (freshReceiver [] examplePublish)
      (wireBytes (Buffers rawBlockCodec examplePublish)) 4).p.Payload
        = [0x00, 0x01, 0x02, 0x03] ∧
    (Unpack rawBlockCodec (freshReceiver [] examplePublish)
      (wireBytes (Buffers rawBlockCodec examplePublish)) 4).p ≠ examplePublish := by
  decide

/-- C1, amended: for every packet with a topic of at most 65535 bytes, a 16-bit
PacketID (0 when QoS is 0), any QoS, Duplicate, Retain and payload, and every
protocol version, `Unpack` on the concatenation of the segments of `Buffers`, on
a fresh receiver whose QoS, Duplicate and Retain are preset, returns no error
and restores Topic and PacketID, provided that under MQTT_5 the properties
decoder reads back the packed properties block; under MQTT_5 the receiver is
then equal to the packet (Topic, PacketID, Properties and Payload included), and
the buffer is left empty. Equality of Payload and Properties under an older
version is not part of the statement. -/
theorem C1_round_trip (codec : PropertiesCodec Props) (p : Publish Props)
    (props0 : Props) (v : Nat)
    (ht : p.Topic.length ≤ 65535) (hid : p.PacketID < 65536)
    (hq0 : p.QoS = 0 → p.PacketID = 0)
    (hc : v = MQTT_5 → ∀ rest, codec.Unpack props0
      (encodeVBIAux ((codec.Pack p.Properties PUBLISH).length + 1)
          (codec.Pack p.Properties PUBLISH).length
        ++ (codec.Pack p.Properties PUBLISH ++ rest)) PUBLISH
      = (p.Properties, none, rest)) :
    (Unpack codec (freshReceiver props0 p) (wireBytes (Buffers codec p)) v).err = none ∧
    (Unpack codec (freshReceiver props0 p) (wireBytes (Buffers codec p)) v).p.Topic
      = p.Topic ∧
    (Unpack codec (freshReceiver props0 p) (wireBytes (Buffers codec p)) v).p.PacketID
      = p.PacketID ∧
    (v = MQTT_5 →
      Unpack codec (freshReceiver props0 p) (wireBytes (Buffers codec p)) v
        = { p := p, r := [], err := none }) := by
  rw [wireBytes_Buffers codec p ht hid]
  have hrs := readString_length_bytes p.Topic
    ((if p.QoS > 0 then [p.PacketID / 256, p.PacketID % 256] else [])
      ++ (encodeVBIAux ((codec.Pack p.Properties PUBLISH).length + 1)
            (codec.Pack p.Properties PUBLISH).length
          ++ (codec.Pack p.Properties PUBLISH ++ p.Payload)))
  have hidv : 256 * (p.PacketID / 256) + p.PacketID % 256 = p.PacketID := by omega
  rcases Nat.eq_zero_or_pos p.QoS with hq | hq
  · have hq2 : ¬ p.QoS > 0 := by omega
    have hpid : p.PacketID = 0 := hq0 hq
    rw [if_neg hq2, List.nil_append] at hrs ⊢
    by_cases hv : v = MQTT_5
    · subst hv
      rw [Unpack_v5_qos0 codec (freshReceiver props0 p) _ p.Topic _ p.Payload p.Properties
        none hrs hq (hc rfl p.Payload)]
      obtain ⟨_, _, _, _, _, _, _⟩ := p
      simp only at hpid hq
      subst hpid hq
      exact ⟨rfl, rfl, rfl, fun _ => rfl⟩
    · rw [Unpack_older_qos0 codec (freshReceiver props0 p) _ v p.Topic _ hrs hq hv]
      exact ⟨rfl, rfl, hpid.symm, fun h => absurd h hv⟩
  · rw [if_pos hq] at hrs ⊢
    have hrd : readUint16 ([p.PacketID / 256, p.PacketID % 256]
        ++ (encodeVBIAux ((codec.Pack p.Properties PUBLISH).length + 1)
              (codec.Pack p.Properties PUBLISH).length
            ++ (codec.Pack p.Properties PUBLISH ++ p.Payload)))
        = (p.PacketID, none,
            encodeVBIAux ((codec.Pack p.Properties PUBLISH).length + 1)
              (codec.Pack p.Properties PUBLISH).length
            ++ (codec.Pack p.Properties PUBLISH ++ p.Payload)) := by
      simp [readUint16, hidv]
    by_cases hv : v = MQTT_5
    · subst hv
      rw [Unpack_v5_qos_pos codec (freshReceiver props0 p) _ p.Topic _ _ p.Payload
        p.PacketID p.Properties none hrs hq hrd (hc rfl p.Payload)]
      exact ⟨rfl, rfl, rfl, fun _ => rfl⟩
    · rw [Unpack_older_qos_pos codec (freshReceiver props0 p) _ v p.Topic _ _ p.PacketID
        hrs hq hrd hv]
      exact ⟨rfl, rfl, rfl, fun h => absurd h hv⟩

/-- Witness of C1, amended: the example packet, decoded under MQTT_5 with the
codec of the uninterpreted properties block, and under version 4. -/
theorem C1_round_trip_witness :
    Unpack rawBlockCodec (freshReceiver [] examplePublish)
        (wireBytes (Buffers rawBlockCodec examplePublish)) MQTT_5
      = { p := examplePublish, r := [], err := none } ∧
    (Unpack rawBlockCodec (freshReceiver [] examplePublish)
        (wireBytes (Buffers rawBlockCodec examplePublish)) 4).p.Topic
      = examplePublish.Topic :=
  ⟨(C1_round_trip rawBlockCodec examplePublish [] MQTT_5 (by decide) (by decide)
      (fun h => absurd h (by decide))
      (fun _ rest => by
        simp [rawBlockCodec, examplePublish, encodeVBIAux, decodeVBIAux])).2.2.2 rfl,
   (C1_round_trip rawBlockCodec examplePublish [] 4 (by decide) (by decide)
      (fun h => absurd h (by decide))
      (fun h => absurd h (by decide))).2.1⟩

/-- C2: for every packet, `ToControlPacket` returns a control packet whose type is
PUBLISH, whose content is the packet itself, and whose flags byte is
`(QoS << 1) | (Duplicate ? 0x08 : 0) | (Retain ? 0x01 : 0)` in 8-bit arithmetic
(so it is below 256); for QoS 1, Duplicate false and Retain true the flags byte
is `0b0011`. -/
theorem C2_toControlPacket_flags (p : Publish Props) (payload topic : List Nat)
    (props : Props) (id : Nat) :
    (ToControlPacket p).FixedHeader.PacketType = PUBLISH ∧
    (ToControlPacket p).Content = p ∧
    (ToControlPacket p).FixedHeader.Flags =
      ((p.QoS <<< 1) % 256 ||| (if p.Duplicate then 0x08 else 0)
        ||| (if p.Retain then 0x01 else 0)) ∧
    (ToControlPacket p).FixedHeader.Flags < 256 ∧
    (ToControlPacket
      { Payload := payload, Topic := topic, Properties := props, PacketID := id,
        QoS := 1, Duplicate := false, Retain := true }).FixedHeader.Flags = 0b0011 := by
  have hq : (p.QoS <<< 1) % 256 < 2 ^ 8 := Nat.mod_lt _ (by norm_num)
  have h8 : 1 <<< 3 < 2 ^ 8 := by decide
  refine ⟨rfl, rfl, ?_, ?_, by simp [ToControlPacket]⟩
  · cases hd : p.Duplicate <;> cases hr : p.Retain <;> simp [ToControlPacket, hd, hr]
  · cases hd : p.Duplicate <;> cases hr : p.Retain <;>
      simp only [ToControlPacket, hd, hr, if_true, if_false, Bool.false_eq_true]
    · exact hq
    · exact Nat.or_lt_two_pow hq (by norm_num)
    · exact Nat.or_lt_two_pow hq h8
    · exact Nat.or_lt_two_pow (Nat.or_lt_two_pow hq h8) (by norm_num)

/-- C3: on the valid range QoS in {0,1,2} the flags derivation is invertible. With
`f` the flags byte of `ToControlPacket`: `(f >> 1) & 3` is the QoS, bit 3 of `f`
is Duplicate, bit 0 of `f` is Retain, deriving the flags again from the three
decoded values gives `f`, and two packets in that range with the same flags byte
have the same QoS, Duplicate and Retain. -/
theorem C3_flags_invertible (p q : Publish Props) (hp : p.QoS ≤ 2) (hq : q.QoS ≤ 2) :
    ((ToControlPacket p).FixedHeader.Flags >>> 1) &&& 3 = p.QoS ∧
    decide ((ToControlPacket p).FixedHeader.Flags &&& 0x08 ≠ 0) = p.Duplicate ∧
    decide ((ToControlPacket p).FixedHeader.Flags &&& 0x01 ≠ 0) = p.Retain ∧
    (ToControlPacket
      { p with
        QoS := ((ToControlPacket p).FixedHeader.Flags >>> 1) &&& 3
        Duplicate := decide ((ToControlPacket p).FixedHeader.Flags &&& 0x08 ≠ 0)
        Retain := decide ((ToControlPacket p).FixedHeader.Flags &&& 0x01 ≠ 0) }).FixedHeader.Flags
      = (ToControlPacket p).FixedHeader.Flags ∧
    ((ToControlPacket p).FixedHeader.Flags = (ToControlPacket q).FixedHeader.Flags →
      p.QoS = q.QoS ∧ p.Duplicate = q.Duplicate ∧ p.Retain = q.Retain) := by
  obtain ⟨_, _, _, _, pq, pd, pr⟩ := p
  obtain ⟨_, _, _, _, qq, qd, qr⟩ := q
  simp only at hp hq
  interval_cases pq <;> cases pd <;> cases pr <;>
    (refine ⟨?_, ?_, ?_, ?_, ?_⟩
     · simp only [ToControlPacket]; decide
     · simp only [ToControlPacket]; decide
     · simp only [ToControlPacket]; decide
     · simp only [ToControlPacket]; decide
     · interval_cases qq <;> cases qd <;> cases qr <;>
         (simp only [ToControlPacket]; decide))

/-- Witness of C3: the example packet (QoS 1, Retain set) and a packet with QoS 2
and Duplicate set. -/
theorem C3_flags_invertible_witness :
    ((ToControlPacket examplePublish).FixedHeader.Flags >>> 1) &&& 3 = 1 ∧
    decide ((ToControlPacket examplePublish).FixedHeader.Flags &&& 0x08 ≠ 0) = false ∧
    decide ((ToControlPacket examplePublish).FixedHeader.Flags &&& 0x01 ≠ 0) = true ∧
    (ToControlPacket examplePublish).FixedHeader.Flags
      ≠ (ToControlPacket { examplePublish with QoS := 2, Duplicate := true }).FixedHeader.Flags :=
  have h := C3_flags_invertible examplePublish
    { examplePublish with QoS := 2, Duplicate := true } (by decide) (by decide)
  ⟨h.1, h.2.1, h.2.2.1, fun hf => absurd (h.2.2.2.2 hf).1 (by decide)⟩

/-- C4: wire layout of the encoding. For every packet with a topic of at most
65535 bytes, the concatenation of the segments of `Buffers` is the 2-byte
big-endian topic length, the topic bytes, the 2-byte big-endian PacketID if and
only if QoS is positive, the variable-byte integer of the length of
`Properties.Pack(PUBLISH)`, the bytes of `Properties.Pack(PUBLISH)`, and the
payload with no length in front. For topic "a/b", QoS 1, empty properties and
payload 01 02 03 this is 00 03 61 2F 62 idHi idLo 00 01 02 03. -/
theorem C4_wire_layout (codec : PropertiesCodec Props) (p : Publish Props)
    (ht : p.Topic.length ≤ 65535) (hid : p.PacketID < 65536) :
    wireBytes (Buffers codec p) =
      [p.Topic.length / 256, p.Topic.length % 256] ++ p.Topic
        ++ (if p.QoS > 0 then [p.PacketID / 256, p.PacketID % 256] else [])
        ++ encodeVBIAux ((codec.Pack p.Properties PUBLISH).length + 1)
            (codec.Pack p.Properties PUBLISH).length
        ++ codec.Pack p.Properties PUBLISH
        ++ p.Payload ∧
    (p.Topic = [0x61, 0x2F, 0x62] → p.QoS = 1 → codec.Pack p.Properties PUBLISH = [] →
      p.Payload = [1, 2, 3] →
      wireBytes (Buffers codec p) =
        [0x00, 0x03, 0x61, 0x2F, 0x62, p.PacketID / 256, p.PacketID % 256, 0x00,
          0x01, 0x02, 0x03]) := by
  rw [wireBytes_Buffers codec p ht hid]
  refine ⟨by simp, ?_⟩
  intro hT hQ hP hPl
  simp [hT, hQ, hP, hPl, encodeVBIAux]

/-- Witness of C4: the example packet with identifier 0x1234. -/
theorem C4_wire_layout_witness :
    wireBytes (Buffers rawBlockCodec examplePublish) =
      [0x00, 0x03, 0x61, 0x2F, 0x62, 0x1234 / 256, 0x1234 % 256, 0x00, 0x01, 0x02, 0x03] :=
  (C4_wire_layout rawBlockCodec examplePublish (by decide) (by decide)).2 rfl rfl rfl rfl

/-- C5: the encoder emits the packet identifier if and only if QoS is positive.
For every packet, the first segment of `Buffers` is the length-prefixed topic,
immediately followed by the two bytes `PacketID >> 8`, `PacketID & 0xFF` when QoS
is positive and by no identifier bytes when QoS is 0, and then only by the
variable-byte length of the properties block; so two packets with QoS 0 that
differ only in PacketID produce identical segments. -/
theorem C5_buffers_identifier_iff_qos (codec : PropertiesCodec Props) (p : Publish Props)
    (id2 : Nat) (hid : p.PacketID < 65536) :
    (Buffers codec p).head? = some
      ([p.Topic.length % 65536 / 256, p.Topic.length % 256] ++ p.Topic
        ++ (if p.QoS > 0 then [p.PacketID >>> 8, p.PacketID &&& 0xFF] else [])
        ++ encodeVBIAux ((codec.Pack p.Properties PUBLISH).length + 1)
            (codec.Pack p.Properties PUBLISH).length) ∧
    (p.QoS = 0 → Buffers codec { p with PacketID := id2 } = Buffers codec p) := by
  have h1 : p.Topic.length % 65536 / 256 % 256 = p.Topic.length % 65536 / 256 := by omega
  have h2 : p.Topic.length % 65536 % 256 = p.Topic.length % 256 := by omega
  have h3 : p.PacketID / 256 % 256 = p.PacketID >>> 8 := by
    rw [Nat.shiftRight_eq_div_pow]; omega
  have h4 : p.PacketID % 256 = p.PacketID &&& 0xFF :=
    (Nat.and_pow_two_sub_one_eq_mod p.PacketID 8).symm
  constructor
  · rw [Buffers_eq, h1, h2, h3, h4]; rfl
  · intro hq
    rw [Buffers_eq, Buffers_eq]
    simp [hq]

/-- Witness of C5: the example packet has the identifier bytes 12 34 after its
topic; with QoS 0 the identifier does not reach the segments. -/
theorem C5_buffers_identifier_iff_qos_witness :
    (Buffers rawBlockCodec examplePublish).head? = some
      ([0, 3] ++ [0x61, 0x2F, 0x62] ++ [0x12, 0x34] ++ [0]) ∧
    Buffers rawBlockCodec { exampleReceiverQoS0 with PacketID := 5 }
      = Buffers rawBlockCodec exampleReceiverQoS0 :=
  ⟨(C5_buffers_identifier_iff_qos rawBlockCodec examplePublish 0 (by decide)).1,
   (C5_buffers_identifier_iff_qos rawBlockCodec exampleReceiverQoS0 5 (by decide)).2 rfl⟩

/-- C6: the decoder never consumes an identifier when QoS is 0. For every topic
`t` of at most 65535 bytes and every byte sequence `rest`, `Unpack` under an
older protocol version on a receiver with QoS 0 and input (2-byte big-endian
length of `t`, both of them bytes, then `t`, then `rest`) returns no error, sets Topic to `t`, sets
Payload to exactly `rest`, and leaves PacketID at its previous value. -/
theorem C6_unpack_qos0_no_identifier (codec : PropertiesCodec Props) (p : Publish Props)
    (t rest : List Nat) (v : Nat)
    (ht : t.length ≤ 65535) (hq : p.QoS = 0) (hv : v ≠ MQTT_5) :
    (t.length / 256 < 256 ∧ t.length % 256 < 256) ∧
    (Unpack codec p ([t.length / 256, t.length % 256] ++ t ++ rest) v).err = none ∧
    (Unpack codec p ([t.length / 256, t.length % 256] ++ t ++ rest) v).p.Topic = t ∧
    (Unpack codec p ([t.length / 256, t.length % 256] ++ t ++ rest) v).p.Payload = rest ∧
    (Unpack codec p ([t.length / 256, t.length % 256] ++ t ++ rest) v).p.PacketID
      = p.PacketID := by
  have h : readString ([t.length / 256, t.length % 256] ++ t ++ rest) = (t, none, rest) := by
    simpa using readString_length_bytes t rest
  rw [Unpack_older_qos0 codec p _ v t rest h hq hv]
  exact ⟨by omega, rfl, rfl, rfl, rfl⟩

/-- Witness of C6: topic "a", followed by the bytes 12 34 01, decoded with QoS 0
under protocol version 4; the bytes 12 34 are payload, not an identifier. -/
theorem C6_unpack_qos0_no_identifier_witness :
    ([0x61].length / 256 < 256 ∧ [0x61].length % 256 < 256) ∧
    (Unpack rawBlockCodec exampleReceiverQoS0 ([0, 1] ++ [0x61] ++ [0x12, 0x34, 1]) 4).err
      = none ∧
    (Unpack rawBlockCodec exampleReceiverQoS0 ([0, 1] ++ [0x61] ++ [0x12, 0x34, 1]) 4).p.Topic
      = [0x61] ∧
    (Unpack rawBlockCodec exampleReceiverQoS0 ([0, 1] ++ [0x61] ++ [0x12, 0x34, 1]) 4).p.Payload
      = [0x12, 0x34, 1] ∧
    (Unpack rawBlockCodec exampleReceiverQoS0 ([0, 1] ++ [0x61] ++ [0x12, 0x34, 1]) 4).p.PacketID
      = 77 :=
  C6_unpack_qos0_no_identifier rawBlockCodec exampleReceiverQoS0 [0x61] [0x12, 0x34, 1] 4
    (by decide) rfl (by decide)

/-- Counterexample to C7 as stated: the example packet (topic "a/b", payload
01 02 03, QoS 1, identifier 0x1234, empty properties) is not encoded as
00 03 61 2F 62 12 34 01 02 03; a zero length byte of the properties block stands
between the identifier and the payload. -/
theorem C7_counterexample :
    wireBytes (Buffers rawBlockCodec examplePublish)
        ≠ [0x00, 0x03, 0x61, 0x2F, 0x62, 0x12, 0x34, 0x01, 0x02, 0x03] ∧
    wireBytes (Buffers rawBlockCodec examplePublish)
        = [0x00, 0x03, 0x61, 0x2F, 0x62, 0x12, 0x34, 0x00, 0x01, 0x02, 0x03] := by
  decide

/-- C7, amended: `Buffers` takes no protocol version and always writes the
properties block. For every packet (topic of at most 65535 bytes) the encoding is
the length-prefixed topic, the PacketID if QoS is positive, then the
variable-byte length of the properties block and the block, then the payload;
the length and block take at least one byte, so the encoding is never the
properties-free layout. For topic "a/b", payload 01 02 03, QoS 1 and empty
properties it is 00 03 61 2F 62 idHi idLo 00 01 02 03. -/
theorem C7_buffers_always_write_properties (codec : PropertiesCodec Props)
    (p : Publish Props) (ht : p.Topic.length ≤ 65535) (hid : p.PacketID < 65536) :
    wireBytes (Buffers codec p) =
      ([p.Topic.length / 256, p.Topic.length % 256] ++ p.Topic
        ++ (if p.QoS > 0 then [p.PacketID / 256, p.PacketID % 256] else []))
        ++ (encodeVBIAux ((codec.Pack p.Properties PUBLISH).length + 1)
              (codec.Pack p.Properties PUBLISH).length
            ++ codec.Pack p.Properties PUBLISH)
        ++ p.Payload ∧
    1 ≤ (encodeVBIAux ((codec.Pack p.Properties PUBLISH).length + 1)
              (codec.Pack p.Properties PUBLISH).length
            ++ codec.Pack p.Properties PUBLISH).length ∧
    wireBytes (Buffers codec p) ≠
      ([p.Topic.length / 256, p.Topic.length % 256] ++ p.Topic
        ++ (if p.QoS > 0 then [p.PacketID / 256, p.PacketID % 256] else []))
        ++ p.Payload ∧
    (p.Topic = [0x61, 0x2F, 0x62] → p.QoS = 1 → codec.Pack p.Properties PUBLISH = [] →
      p.Payload = [1, 2, 3] →
      wireBytes (Buffers codec p) =
        [0x00, 0x03, 0x61, 0x2F, 0x62, p.PacketID / 256, p.PacketID % 256, 0x00,
          0x01, 0x02, 0x03]) := by
  have hne := encodeVBIAux_ne_nil (codec.Pack p.Properties PUBLISH).length
    (codec.Pack p.Properties PUBLISH).length
  have hlen : 1 ≤ (encodeVBIAux ((codec.Pack p.Properties PUBLISH).length + 1)
      (codec.Pack p.Properties PUBLISH).length).length :=
    List.length_pos.mpr hne
  rw [wireBytes_Buffers codec p ht hid]
  refine ⟨by simp, ?_, ?_, ?_⟩
  · rw [List.length_append]; omega
  · intro h
    have h2 := congrArg List.length h
    simp only [List.length_cons, List.length_append, List.length_nil] at h2
    omega
  · intro hT hQ hP hPl
    simp [hT, hQ, hP, hPl, encodeVBIAux]

/-- Witness of C7, amended: the example packet with identifier 0x1234. -/
theorem C7_buffers_always_write_properties_witness :
    wireBytes (Buffers rawBlockCodec examplePublish) =
      [0x00, 0x03, 0x61, 0x2F, 0x62, 0x1234 / 256, 0x1234 % 256, 0x00, 0x01, 0x02, 0x03] :=
  (C7_buffers_always_write_properties rawBlockCodec examplePublish
    (by decide) (by decide)).2.2.2 rfl rfl rfl rfl

/-- C8: decoding under an older protocol version never touches properties. For
every receiver and input, when the version is not MQTT_5, the outcome of `Unpack`
does not depend on the properties decoder (it is the same for any two codecs),
the Properties field is left as it was, and on success the input is the 2-byte
topic length, the topic, the identifier when QoS is positive, and then exactly
the bytes that end up in Payload. -/
theorem C8_unpack_older_ignores_properties (c1 c2 : PropertiesCodec Props)
    (p : Publish Props) (r : List Nat) (v : Nat) (hv : v ≠ MQTT_5) :
    Unpack c1 p r v = Unpack c2 p r v ∧
    (Unpack c1 p r v).p.Properties = p.Properties ∧
    ((Unpack c1 p r v).err = none →
      ∃ b1 b2, (Unpack c1 p r v).p.Topic.length = 256 * b1 + b2 ∧
        (p.QoS = 0 →
          r = b1 :: b2 :: ((Unpack c1 p r v).p.Topic ++ (Unpack c1 p r v).p.Payload)) ∧
        (p.QoS > 0 → ∃ i1 i2, (Unpack c1 p r v).p.PacketID = 256 * i1 + i2 ∧
          r = b1 :: b2 ::
            ((Unpack c1 p r v).p.Topic ++ i1 :: i2 :: (Unpack c1 p r v).p.Payload))) := by
  rcases hrs : readString r with ⟨t, _ | e, r1⟩
  · obtain ⟨b1, b2, hr, hlen⟩ := readString_layout r t r1 hrs
    rcases Nat.eq_zero_or_pos p.QoS with hq | hq
    · rw [Unpack_older_qos0 c1 p r v t r1 hrs hq hv,
        Unpack_older_qos0 c2 p r v t r1 hrs hq hv]
      refine ⟨rfl, rfl, fun _ => ⟨b1, b2, hlen, fun _ => hr, fun h => ?_⟩⟩
      omega
    · match r1, hrs, hr with
      | [], hrs, _ =>
        rw [Unpack_id_err c1 p r v t [] [] 0 Error.MalformedField hrs hq rfl,
          Unpack_id_err c2 p r v t [] [] 0 Error.MalformedField hrs hq rfl]
        exact ⟨rfl, rfl, fun h => by simp at h⟩
      | [x], hrs, _ =>
        rw [Unpack_id_err c1 p r v t [x] [] 0 Error.MalformedField hrs hq rfl,
          Unpack_id_err c2 p r v t [x] [] 0 Error.MalformedField hrs hq rfl]
        exact ⟨rfl, rfl, fun h => by simp at h⟩
      | i1 :: i2 :: r2, hrs, hr =>
        rw [Unpack_older_qos_pos c1 p r v t (i1 :: i2 :: r2) r2 (256 * i1 + i2) hrs hq rfl hv,
          Unpack_older_qos_pos c2 p r v t (i1 :: i2 :: r2) r2 (256 * i1 + i2) hrs hq rfl hv]
        refine ⟨rfl, rfl, fun _ => ⟨b1, b2, hlen, fun h => ?_, fun _ => ⟨i1, i2, rfl, hr⟩⟩⟩
        omega
  · rw [Unpack_topic_err c1 p r v t r1 e hrs, Unpack_topic_err c2 p r v t r1 e hrs]
    exact ⟨rfl, rfl, fun h => by simp at h⟩

/-- Witness of C8: the bytes 00 01 61 12 34 00 01 decoded with QoS 1 under
protocol version 4 give the same outcome with a codec that parses the block and
with one that rejects everything, and leave Properties untouched. -/
theorem C8_unpack_older_ignores_properties_witness :
    4 ≠ MQTT_5 ∧
    Unpack rawBlockCodec exampleReceiver [0, 1, 0x61, 0x12, 0x34, 0, 1] 4
      = Unpack rejectingCodec exampleReceiver [0, 1, 0x61, 0x12, 0x34, 0, 1] 4 ∧
    (Unpack rawBlockCodec exampleReceiver [0, 1, 0x61, 0x12, 0x34, 0, 1] 4).p.Properties
      = exampleReceiver.Properties :=
  ⟨by decide,
    (C8_unpack_older_ignores_properties rawBlockCodec rejectingCodec exampleReceiver
      [0, 1, 0x61, 0x12, 0x34, 0, 1] 4 (by decide)).1,
    (C8_unpack_older_ignores_properties rawBlockCodec rejectingCodec exampleReceiver
      [0, 1, 0x61, 0x12, 0x34, 0, 1] 4 (by decide)).2.1⟩

/-- Counterexample to C9 as stated: for the example packet the first segment
ends with the length byte 00 of the properties block, and the second segment is
the bare (empty) block, not the block after its length. -/
theorem C9_counterexample :
    Buffers rawBlockCodec examplePublish
        = [[0x00, 0x03, 0x61, 0x2F, 0x62, 0x12, 0x34, 0x00], [], [0x01, 0x02, 0x03]] ∧
    specSegments rawBlockCodec examplePublish
        = [[0x00, 0x03, 0x61, 0x2F, 0x62, 0x12, 0x34], [0x00], [0x01, 0x02, 0x03]] ∧
    Buffers rawBlockCodec examplePublish ≠ specSegments rawBlockCodec examplePublish := by
  decide

/-- C9, amended: `Buffers` returns exactly three segments. Segment 1 is the
length-prefixed topic, the packet identifier bytes only if QoS is positive, and
then the variable-byte length of the properties block; segment 2 is the bare
properties block `Properties.Pack(PUBLISH)`; segment 3 is the payload,
unchanged. For a topic of at most 65535 bytes and a 16-bit identifier their
concatenation is that of the segments as the specification words them. -/
theorem C9_buffers_segments (codec : PropertiesCodec Props) (p : Publish Props) :
    (Buffers codec p).length = 3 ∧
    Buffers codec p =
      [[p.Topic.length % 65536 / 256, p.Topic.length % 256] ++ p.Topic
          ++ (if p.QoS > 0 then [p.PacketID / 256 % 256, p.PacketID % 256] else [])
          ++ encodeVBIAux ((codec.Pack p.Properties PUBLISH).length + 1)
              (codec.Pack p.Properties PUBLISH).length,
        codec.Pack p.Properties PUBLISH,
        p.Payload] ∧
    (p.Topic.length ≤ 65535 → p.PacketID < 65536 →
      wireBytes (Buffers codec p) = wireBytes (specSegments codec p)) := by
  have h1 : p.Topic.length % 65536 / 256 % 256 = p.Topic.length % 65536 / 256 := by omega
  have h2 : p.Topic.length % 65536 % 256 = p.Topic.length % 256 := by omega
  refine ⟨by rw [Buffers_eq]; rfl, by rw [Buffers_eq, h1, h2], ?_⟩
  intro ht hid
  rw [wireBytes_Buffers codec p ht hid]
  simp [wireBytes, specSegments]

/-- Witness of C9, amended: the segments of the example packet, whose
concatenation is that of the specified segments. -/
theorem C9_buffers_segments_witness :
    wireBytes (Buffers rawBlockCodec examplePublish)
      = wireBytes (specSegments rawBlockCodec examplePublish) :=
  (C9_buffers_segments rawBlockCodec examplePublish).2.2 (by decide) (by decide)

/-- C10: identifier decoding. For every receiver with positive QoS, once the topic
has been read successfully (leaving the bytes `r1`), `Unpack` reads the next two
bytes `b1`, `b2` as the identifier and sets PacketID to `256 * b1 + b2`; if fewer
than two bytes remain after the topic, `Unpack` returns an error
(`MalformedField`) and Payload keeps its previous value. -/
theorem C10_unpack_identifier (codec : PropertiesCodec Props) (p : Publish Props)
    (r : List Nat) (v : Nat) (t r1 : List Nat)
    (hq : p.QoS > 0) (ht : readString r = (t, none, r1)) :
    (∀ b1 b2 rest, r1 = b1 :: b2 :: rest →
      (Unpack codec p r v).p.PacketID = 256 * b1 + b2) ∧
    (r1.length < 2 →
      (Unpack codec p r v).err = some Error.MalformedField ∧
      (Unpack codec p r v).p.Payload = p.Payload) := by
  constructor
  · intro b1 b2 rest hr1
    subst hr1
    by_cases hv : v = MQTT_5
    · subst hv
      rcases hc : codec.Unpack p.Properties rest PUBLISH with ⟨props, e, r3⟩
      rw [Unpack_v5_qos_pos codec p r t (b1 :: b2 :: rest) rest r3 (256 * b1 + b2) props e
        ht hq rfl hc]
      cases e <;> rfl
    · rw [Unpack_older_qos_pos codec p r v t (b1 :: b2 :: rest) rest (256 * b1 + b2)
        ht hq rfl hv]
  · intro hlen
    rw [Unpack_id_err codec p r v t r1 [] 0 Error.MalformedField ht hq
      (readUint16_short r1 hlen)]
    exact ⟨rfl, rfl⟩

/-- Witness of C10: with QoS 1, the input 00 01 61 12 34 01 sets PacketID to
0x1234, and the input 00 01 61 12, one byte short, fails and keeps the payload. -/
theorem C10_unpack_identifier_witness :
    (Unpack rawBlockCodec exampleReceiver [0, 1, 0x61, 0x12, 0x34, 1] 4).p.PacketID
      = 256 * 0x12 + 0x34 ∧
    ((Unpack rawBlockCodec exampleReceiver [0, 1, 0x61, 0x12] 4).err
      = some Error.MalformedField ∧
    (Unpack rawBlockCodec exampleReceiver [0, 1, 0x61, 0x12] 4).p.Payload
      = exampleReceiver.Payload) :=
  ⟨(C10_unpack_identifier rawBlockCodec exampleReceiver [0, 1, 0x61, 0x12, 0x34, 1] 4
      [0x61] [0x12, 0x34, 1] (by decide) rfl).1 0x12 0x34 [1] rfl,
   (C10_unpack_identifier rawBlockCodec exampleReceiver [0, 1, 0x61, 0x12] 4
      [0x61] [0x12] (by decide) rfl).2 (by decide)⟩

/-- C11: topic truncation is rejected. For every input buffer that has fewer than
2 bytes, or whose leading 2-byte big-endian length exceeds the number of bytes
remaining after those 2 bytes, `Unpack` returns an error (`MalformedField`) for
every receiver, QoS and protocol version; in particular, for every encoded block
of a packet `q` (topic of at most 65535 bytes, 16-bit identifier), decoding any
of its leading parts shorter than the declared topic length fails. -/
theorem C11_topic_truncation (codec : PropertiesCodec Props) (p q : Publish Props)
    (r : List Nat) (v k : Nat) :
    ((r.length < 2 ∨
        ∃ b1 b2 rest, r = b1 :: b2 :: rest ∧ rest.length < 256 * b1 + b2) →
      (Unpack codec p r v).err = some Error.MalformedField) ∧
    (q.Topic.length ≤ 65535 → q.PacketID < 65536 → k < q.Topic.length →
      (Unpack codec p ((wireBytes (Buffers codec q)).take k) v).err
        = some Error.MalformedField) := by
  have key : ∀ r : List Nat, (r.length < 2 ∨
      ∃ b1 b2 rest, r = b1 :: b2 :: rest ∧ rest.length < 256 * b1 + b2) →
      (Unpack codec p r v).err = some Error.MalformedField := by
    intro r h
    rw [Unpack_topic_err codec p r v [] [] Error.MalformedField (readString_truncated r h)]
  refine ⟨key r, fun ht hid hk => key _ ?_⟩
  rw [wireBytes_Buffers codec q ht hid]
  exact take_truncated _ _ _ k (by omega)

/-- Witness of C11: the one-byte buffer 00, the buffer 00 05 61 62 that declares
five topic bytes and holds two, and the first two bytes of the encoding of the
example packet, each decoded with QoS 1 under MQTT_5. -/
theorem C11_topic_truncation_witness :
    (Unpack rawBlockCodec exampleReceiver [0] MQTT_5).err = some Error.MalformedField ∧
    (Unpack rawBlockCodec exampleReceiver [0, 5, 0x61, 0x62] MQTT_5).err
      = some Error.MalformedField ∧
    (Unpack rawBlockCodec exampleReceiver
      ((wireBytes (Buffers rawBlockCodec examplePublish)).take 2) MQTT_5).err
      = some Error.MalformedField :=
  ⟨(C11_topic_truncation rawBlockCodec exampleReceiver examplePublish [0] MQTT_5 0).1
      (Or.inl (by decide)),
   (C11_topic_truncation rawBlockCodec exampleReceiver examplePublish [0, 5, 0x61, 0x62]
      MQTT_5 0).1 (Or.inr ⟨0, 5, [0x61, 0x62], rfl, by decide⟩),
   (C11_topic_truncation rawBlockCodec exampleReceiver examplePublish [] MQTT_5 2).2
      (by decide) (by decide) (by decide)⟩

/-- C12: the payload step cannot fail and takes everything that is left. For
every input on which the topic is read (leaving `r1`), the identifier is read
when QoS is positive (leaving `r2`), and the properties are read when the version
is MQTT_5 (leaving `r3`), `Unpack` returns no error, Payload is exactly `r3`, and
the buffer is empty afterwards; when `r3` is empty, Payload is the empty sequence
and the result is still success. -/
theorem C12_payload_takes_the_rest (codec : PropertiesCodec Props) (p : Publish Props)
    (r : List Nat) (v : Nat) (t r1 r2 r3 : List Nat)
    (ht : readString r = (t, none, r1))
    (hid1 : p.QoS > 0 → ∃ id, readUint16 r1 = (id, none, r2))
    (hid0 : p.QoS = 0 → r2 = r1)
    (hp1 : v = MQTT_5 → ∃ props, codec.Unpack p.Properties r2 PUBLISH = (props, none, r3))
    (hp0 : v ≠ MQTT_5 → r3 = r2) :
    (Unpack codec p r v).err = none ∧
    (Unpack codec p r v).p.Payload = r3 ∧
    (Unpack codec p r v).r = [] ∧
    (r3 = [] → (Unpack codec p r v).err = none ∧ (Unpack codec p r v).p.Payload = []) := by
  have main : (Unpack codec p r v).err = none ∧ (Unpack codec p r v).p.Payload = r3 ∧
      (Unpack codec p r v).r = [] := by
    rcases Nat.eq_zero_or_pos p.QoS with hq | hq
    · have h21 := hid0 hq
      subst h21
      by_cases hv : v = MQTT_5
      · obtain ⟨props, hc⟩ := hp1 hv
        subst hv
        rw [Unpack_v5_qos0 codec p r t r2 r3 props none ht hq hc]
        exact ⟨rfl, rfl, rfl⟩
      · have h32 := hp0 hv
        subst h32
        rw [Unpack_older_qos0 codec p r v t r3 ht hq hv]
        exact ⟨rfl, rfl, rfl⟩
    · obtain ⟨id, hrd⟩ := hid1 hq
      by_cases hv : v = MQTT_5
      · obtain ⟨props, hc⟩ := hp1 hv
        subst hv
        rw [Unpack_v5_qos_pos codec p r t r1 r2 r3 id props none ht hq hrd hc]
        exact ⟨rfl, rfl, rfl⟩
      · have h32 := hp0 hv
        subst h32
        rw [Unpack_older_qos_pos codec p r v t r1 r3 id ht hq hrd hv]
        exact ⟨rfl, rfl, rfl⟩
  exact ⟨main.1, main.2.1, main.2.2, fun h => ⟨main.1, h ▸ main.2.1⟩⟩

/-- Witness of C12: the input 00 01 61 12 34 00 holds a topic, an identifier and
an empty properties block and nothing else; decoded with QoS 1 under MQTT_5 it
succeeds with an empty payload and leaves the buffer empty. -/
theorem C12_payload_takes_the_rest_witness :
    (Unpack rawBlockCodec exampleReceiver [0, 1, 0x61, 0x12, 0x34, 0] MQTT_5).err = none ∧
    (Unpack rawBlockCodec exampleReceiver [0, 1, 0x61, 0x12, 0x34, 0] MQTT_5).p.Payload
      = [] ∧
    (Unpack rawBlockCodec exampleReceiver [0, 1, 0x61, 0x12, 0x34, 0] MQTT_5).r = [] :=
  have h := C12_payload_takes_the_rest rawBlockCodec exampleReceiver
    [0, 1, 0x61, 0x12, 0x34, 0] MQTT_5 [0x61] [0x12, 0x34, 0] [0] [] rfl
    (fun _ => ⟨0x1234, rfl⟩) (fun h => absurd h (by decide))
    (fun _ => ⟨[], rfl⟩) (fun h => absurd rfl h)
  ⟨h.1, h.2.1, h.2.2.1⟩

/-- C13: properties decode failures propagate unchanged. When the protocol version
is MQTT_5, the topic is read (leaving `r1`), the identifier is read when QoS is
positive (leaving `r2`), and the properties decoder called with packet type
PUBLISH returns the error `e`, `Unpack` returns exactly `e` and does not read the
payload: Payload keeps its value and the buffer is as the properties decoder left
it. -/
theorem C13_properties_error_propagates (codec : PropertiesCodec Props) (p : Publish Props)
    (r : List Nat) (t r1 r2 r3 : List Nat) (props : Props) (e : Error)
    (ht : readString r = (t, none, r1))
    (hid1 : p.QoS > 0 → ∃ id, readUint16 r1 = (id, none, r2))
    (hid0 : p.QoS = 0 → r2 = r1)
    (hp : codec.Unpack p.Properties r2 PUBLISH = (props, some e, r3)) :
    (Unpack codec p r MQTT_5).err = some e ∧
    (Unpack codec p r MQTT_5).p.Payload = p.Payload ∧
    (Unpack codec p r MQTT_5).r = r3 := by
  rcases Nat.eq_zero_or_pos p.QoS with hq | hq
  · have h21 := hid0 hq
    subst h21
    rw [Unpack_v5_qos0 codec p r t r2 r3 props (some e) ht hq hp]
    exact ⟨rfl, rfl, rfl⟩
  · obtain ⟨id, hrd⟩ := hid1 hq
    rw [Unpack_v5_qos_pos codec p r t r1 r2 r3 id props (some e) ht hq hrd hp]
    exact ⟨rfl, rfl, rfl⟩

/-- Witness of C13: after the topic "a" and the identifier 12 34 the properties
block declares five bytes and holds one; the error of the properties decoder is
the error of `Unpack`, and the payload is not read. -/
theorem C13_properties_error_propagates_witness :
    (Unpack rawBlockCodec exampleReceiver [0, 1, 0x61, 0x12, 0x34, 5, 1] MQTT_5).err
      = some (Error.PropertiesError 1) ∧
    (Unpack rawBlockCodec exampleReceiver [0, 1, 0x61, 0x12, 0x34, 5, 1] MQTT_5).p.Payload
      = exampleReceiver.Payload ∧
    (Unpack rawBlockCodec exampleReceiver [0, 1, 0x61, 0x12, 0x34, 5, 1] MQTT_5).r = [] :=
  C13_properties_error_propagates rawBlockCodec exampleReceiver
    [0, 1, 0x61, 0x12, 0x34, 5, 1] [0x61] [0x12, 0x34, 5, 1] [5, 1] [] [] 
    (Error.PropertiesError 1) rfl
    (fun _ => ⟨0x1234, rfl⟩) (fun h => absurd h (by decide)) rfl

/-- Counterexample to C14 as stated: with QoS 1 the input 00 01 61 holds the
topic "a" and no identifier; `Unpack` returns an error, yet the Topic of the
receiver has already been set to "a", so the receiver is not as it was before
the call. -/
theorem C14_counterexample :
    (Unpack rawBlockCodec exampleReceiver [0, 1, 0x61] 4).err
      = some Error.MalformedField ∧
    exampleReceiver.Topic = [] ∧
    (Unpack rawBlockCodec exampleReceiver [0, 1, 0x61] 4).p.Topic = [0x61] ∧
    (Unpack rawBlockCodec exampleReceiver [0, 1, 0x61] 4).p ≠ exampleReceiver := by
  decide

/-- C14, amended: `Unpack` fills the receiver in place, field by field, and does
not roll back. If it returns an error, then Payload, QoS, Duplicate and Retain
have the values they had before the call, PacketID too when QoS is 0, and
Properties too when the protocol version is not MQTT_5; nothing is stated about
the fields read before the failure (Topic, PacketID when QoS is positive,
Properties under MQTT_5). -/
theorem C14_failed_unpack_frame (codec : PropertiesCodec Props) (p : Publish Props)
    (r : List Nat) (v : Nat) (herr : (Unpack codec p r v).err ≠ none) :
    (Unpack codec p r v).p.Payload = p.Payload ∧
    (Unpack codec p r v).p.QoS = p.QoS ∧
    (Unpack codec p r v).p.Duplicate = p.Duplicate ∧
    (Unpack codec p r v).p.Retain = p.Retain ∧
    (p.QoS = 0 → (Unpack codec p r v).p.PacketID = p.PacketID) ∧
    (v ≠ MQTT_5 → (Unpack codec p r v).p.Properties = p.Properties) :=
  have h := Unpack_frame codec p r v
  ⟨h.2.2.2.1 herr, h.1, h.2.1, h.2.2.1, h.2.2.2.2.1, h.2.2.2.2.2⟩

/-- Witness of C14, amended: a receiver with QoS 0 that holds a payload, an
identifier and properties, and the truncated input 00 05 61 under version 4: the
decode fails and these fields are as before. -/
theorem C14_failed_unpack_frame_witness :
    (Unpack rawBlockCodec exampleReceiverQoS0 [0, 5, 0x61] 4).err ≠ none ∧
    (Unpack rawBlockCodec exampleReceiverQoS0 [0, 5, 0x61] 4).p.Payload = [9] ∧
    (Unpack rawBlockCodec exampleReceiverQoS0 [0, 5, 0x61] 4).p.PacketID = 77 ∧
    (Unpack rawBlockCodec exampleReceiverQoS0 [0, 5, 0x61] 4).p.Properties = [7, 7] :=
  have h := C14_failed_unpack_frame rawBlockCodec exampleReceiverQoS0 [0, 5, 0x61] 4
    (by decide)
  ⟨by decide, h.1, h.2.2.2.2.1 rfl, h.2.2.2.2.2 (by decide)⟩

/-- C15: `SetIdentifier` is a pure field setter. For every packet, whatever its
QoS, and every identifier, after `SetIdentifier` the PacketID is the identifier
and Topic, Payload, Properties, QoS, Duplicate and Retain are unchanged; calling
it twice leaves the PacketID of the last call. -/
theorem C15_setIdentifier (p : Publish Props) (id id2 : Nat) :
    (SetIdentifier p id).PacketID = id ∧
    (SetIdentifier p id).Topic = p.Topic ∧
    (SetIdentifier p id).Payload = p.Payload ∧
    (SetIdentifier p id).Properties = p.Properties ∧
    (SetIdentifier p id).QoS = p.QoS ∧
    (SetIdentifier p id).Duplicate = p.Duplicate ∧
    (SetIdentifier p id).Retain = p.Retain ∧
    (SetIdentifier (SetIdentifier p id) id2).PacketID = id2 ∧
    SetIdentifier (SetIdentifier p id) id2 = SetIdentifier p id2 :=
  ⟨rfl, rfl, rfl, rfl, rfl, rfl, rfl, rfl, rfl⟩

/-- Counterexample to C16 as stated: the packet `examplePublishQoS0` (QoS 0,
PacketID 0) and the receiver `exampleReceiverQoS0`, whose QoS, Duplicate and
Retain are preset to those of the packet but which still holds the PacketID 77.
Every condition of the claim holds, the properties decoder reads the packed
block back, and `Unpack` under MQTT_5 returns no error; yet the PacketID of the
receiver stays 77, since the identifier is not read at QoS 0, and is not the
PacketID 0 of the packet. -/
theorem C16_counterexample :
    (examplePublishQoS0.Topic.length ≤ 65535 ∧ examplePublishQoS0.QoS = 0 ∧
      examplePublishQoS0.PacketID = 0) ∧
    (exampleReceiverQoS0.QoS = examplePublishQoS0.QoS ∧
      exampleReceiverQoS0.Duplicate = examplePublishQoS0.Duplicate ∧
      exampleReceiverQoS0.Retain = examplePublishQoS0.Retain) ∧
    (∀ rest, rawBlockCodec.Unpack exampleReceiverQoS0.Properties
      (encodeVBIAux ((rawBlockCodec.Pack examplePublishQoS0.Properties PUBLISH).length + 1)
          (rawBlockCodec.Pack examplePublishQoS0.Properties PUBLISH).length
        ++ (rawBlockCodec.Pack examplePublishQoS0.Properties PUBLISH ++ rest)) PUBLISH
      = (examplePublishQoS0.Properties, none, rest)) ∧
    (Unpack rawBlockCodec exampleReceiverQoS0
      (wireBytes (Buffers rawBlockCodec examplePublishQoS0)) MQTT_5).err = none ∧
    (Unpack rawBlockCodec exampleReceiverQoS0
      (wireBytes (Buffers rawBlockCodec examplePublishQoS0)) MQTT_5).p.PacketID = 77 ∧
    (Unpack rawBlockCodec exampleReceiverQoS0
      (wireBytes (Buffers rawBlockCodec examplePublishQoS0)) MQTT_5).p.PacketID
      ≠ examplePublishQoS0.PacketID := by
  refine ⟨by decide, by decide, ?_, by decide, by decide, by decide⟩
  intro rest
  simp [rawBlockCodec, examplePublishQoS0, exampleReceiverQoS0, encodeVBIAux,
    decodeVBIAux]

/-- C16, amended: round trip under MQTT_5 into a fresh receiver. For every packet
`p` with a topic of at most 65535 bytes, a 16-bit PacketID that is 0 when QoS is
0, and properties that the properties decoder reads back from (variable-byte
length, then `Properties.Pack(PUBLISH)`), consuming exactly those bytes, `Unpack`
under MQTT_5 on the concatenation of the segments of `Buffers`, with a receiver
whose QoS, Duplicate and Retain are preset to those of `p` and whose PacketID is
still zero when QoS is 0, returns no error and yields Topic, PacketID,
Properties and Payload equal to those of `p`. -/
theorem C16_round_trip_mqtt5 (codec : PropertiesCodec Props) (p recv : Publish Props)
    (ht : p.Topic.length ≤ 65535) (hid : p.PacketID < 65536)
    (hq0 : p.QoS = 0 → p.PacketID = 0)
    (hQ : recv.QoS = p.QoS) (hD : recv.Duplicate = p.Duplicate)
    (hR : recv.Retain = p.Retain) (hfresh : p.QoS = 0 → recv.PacketID = 0)
    (hc : ∀ rest, codec.Unpack recv.Properties
      (encodeVBIAux ((codec.Pack p.Properties PUBLISH).length + 1)
          (codec.Pack p.Properties PUBLISH).length
        ++ (codec.Pack p.Properties PUBLISH ++ rest)) PUBLISH
      = (p.Properties, none, rest)) :
    (Unpack codec recv (wireBytes (Buffers codec p)) MQTT_5).err = none ∧
    (Unpack codec recv (wireBytes (Buffers codec p)) MQTT_5).p.Topic = p.Topic ∧
    (Unpack codec recv (wireBytes (Buffers codec p)) MQTT_5).p.PacketID = p.PacketID ∧
    (Unpack codec recv (wireBytes (Buffers codec p)) MQTT_5).p.Properties
      = p.Properties ∧
    (Unpack codec recv (wireBytes (Buffers codec p)) MQTT_5).p.Payload = p.Payload ∧
    (Unpack codec recv (wireBytes (Buffers codec p)) MQTT_5).p = p := by
  rw [wireBytes_Buffers codec p ht hid]
  have hrs := readString_length_bytes p.Topic
    ((if p.QoS > 0 then [p.PacketID / 256, p.PacketID % 256] else [])
      ++ (encodeVBIAux ((codec.Pack p.Properties PUBLISH).length + 1)
            (codec.Pack p.Properties PUBLISH).length
          ++ (codec.Pack p.Properties PUBLISH ++ p.Payload)))
  have hidv : 256 * (p.PacketID / 256) + p.PacketID % 256 = p.PacketID := by omega
  rcases Nat.eq_zero_or_pos p.QoS with hq | hq
  · have hq2 : ¬ p.QoS > 0 := by omega
    have hpid : p.PacketID = 0 := hq0 hq
    have hrpid : recv.PacketID = 0 := hfresh hq
    rw [if_neg hq2, List.nil_append] at hrs ⊢
    rw [Unpack_v5_qos0 codec recv _ p.Topic _ p.Payload p.Properties none hrs
      (hQ.trans hq) (hc p.Payload)]
    obtain ⟨_, _, _, _, _, _, _⟩ := p
    obtain ⟨_, _, _, _, _, _, _⟩ := recv
    simp only at hpid hrpid hQ hD hR
    subst hpid hrpid hQ hD hR
    exact ⟨rfl, rfl, rfl, rfl, rfl, rfl⟩
  · rw [if_pos hq] at hrs ⊢
    have hrd : readUint16 ([p.PacketID / 256, p.PacketID % 256]
        ++ (encodeVBIAux ((codec.Pack p.Properties PUBLISH).length + 1)
              (codec.Pack p.Properties PUBLISH).length
            ++ (codec.Pack p.Properties PUBLISH ++ p.Payload)))
        = (p.PacketID, none,
            encodeVBIAux ((codec.Pack p.Properties PUBLISH).length + 1)
              (codec.Pack p.Properties PUBLISH).length
            ++ (codec.Pack p.Properties PUBLISH ++ p.Payload)) := by
      simp [readUint16, hidv]
    rw [Unpack_v5_qos_pos codec recv _ p.Topic _ _ p.Payload p.PacketID p.Properties none
      hrs (hQ ▸ hq) hrd (hc p.Payload)]
    obtain ⟨_, _, _, _, _, _, _⟩ := p
    obtain ⟨_, _, _, _, _, _, _⟩ := recv
    simp only at hQ hD hR
    subst hQ hD hR
    exact ⟨rfl, rfl, rfl, rfl, rfl, rfl⟩

/-- Witness of C16, amended: a packet with topic "a/b", QoS 2, identifier 0x0102,
the three-byte properties block 26 00 00 and payload 07 08, decoded into a
receiver preset with QoS 2; and the packet `examplePublishQoS0`, with QoS 0,
decoded into its fresh receiver, whose PacketID is zero. -/
theorem C16_round_trip_mqtt5_witness :
    (Unpack rawBlockCodec
      { exampleReceiver with QoS := 2 }
      (wireBytes (Buffers rawBlockCodec
        { examplePublish with QoS := 2, PacketID := 0x0102, Properties := [0x26, 0, 0],
                              Payload := [7, 8] })) MQTT_5).p
      = { examplePublish with QoS := 2, PacketID := 0x0102, Properties := [0x26, 0, 0],
                              Payload := [7, 8] } ∧
    (Unpack rawBlockCodec (freshReceiver [] examplePublishQoS0)
      (wireBytes (Buffers rawBlockCodec examplePublishQoS0)) MQTT_5).p
      = examplePublishQoS0 :=
  ⟨(C16_round_trip_mqtt5 rawBlockCodec
      { examplePublish with QoS := 2, PacketID := 0x0102, Properties := [0x26, 0, 0],
                            Payload := [7, 8] }
      { exampleReceiver with QoS := 2 }
      (by decide) (by decide) (fun h => absurd h (by decide)) rfl rfl rfl
      (fun h => absurd h (by decide))
      (fun rest => by
        simp [rawBlockCodec, examplePublish, exampleReceiver, encodeVBIAux,
          decodeVBIAux])).2.2.2.2.2,
   (C16_round_trip_mqtt5 rawBlockCodec examplePublishQoS0
      (freshReceiver [] examplePublishQoS0)
      (by decide) (by decide) (fun _ => rfl) rfl rfl rfl (fun _ => rfl)
      (fun rest => by
        simp [rawBlockCodec, examplePublishQoS0, freshReceiver, encodeVBIAux,
          decodeVBIAux])).2.2.2.2.2⟩

/-- C17: `Unpack` never changes the flag-bearing fields. For every receiver,
input buffer and protocol version, whether `Unpack` succeeds or fails, QoS,
Duplicate and Retain after the call equal their values before the call. The QoS
that gates reading the identifier is the preset one: with QoS 0 the PacketID is
left as it was whatever the bytes are, and with a positive QoS, once the topic is
read, the PacketID is what `readUint16` returns on the bytes after the topic. -/
theorem C17_unpack_keeps_flags (codec : PropertiesCodec Props) (p : Publish Props)
    (r : List Nat) (v : Nat) :
    (Unpack codec p r v).p.QoS = p.QoS ∧
    (Unpack codec p r v).p.Duplicate = p.Duplicate ∧
    (Unpack codec p r v).p.Retain = p.Retain ∧
    (p.QoS = 0 → (Unpack codec p r v).p.PacketID = p.PacketID) ∧
    (p.QoS > 0 → ∀ t r1, readString r = (t, none, r1) →
      (Unpack codec p r v).p.PacketID = (readUint16 r1).1) :=
  have h := Unpack_frame codec p r v
  ⟨h.1, h.2.1, h.2.2.1, h.2.2.2.2.1,
    fun hq t r1 hrs => Unpack_reads_id codec p r v t r1 hq hrs⟩

/-- Witness of C17: the bytes 00 01 61 00 02 07 decoded with QoS 0 leave the
PacketID 77 of the receiver in place, and decoded with QoS 1 set it to 2; the
QoS after the call is the preset one in both cases. -/
theorem C17_unpack_keeps_flags_witness :
    (Unpack rawBlockCodec exampleReceiverQoS0 [0, 1, 0x61, 0, 2, 7] 4).p.QoS = 0 ∧
    (Unpack rawBlockCodec exampleReceiverQoS0 [0, 1, 0x61, 0, 2, 7] 4).p.PacketID = 77 ∧
    (Unpack rawBlockCodec exampleReceiver [0, 1, 0x61, 0, 2, 7] 4).p.QoS = 1 ∧
    (Unpack rawBlockCodec exampleReceiver [0, 1, 0x61, 0, 2, 7] 4).p.PacketID = 2 :=
  have h0 := C17_unpack_keeps_flags rawBlockCodec exampleReceiverQoS0
    [0, 1, 0x61, 0, 2, 7] 4
  have h1 := C17_unpack_keeps_flags rawBlockCodec exampleReceiver
    [0, 1, 0x61, 0, 2, 7] 4
  ⟨h0.1, h0.2.2.2.1 rfl, h1.1, h1.2.2.2.2 (by decide) [0x61] [0, 2, 7] rfl⟩

/-- C18: the derived flags fit in the four-bit flags field. For every packet with
QoS at most 3 and every Duplicate and Retain, the flags byte of `ToControlPacket`
is at most 15, its upper four bits being zero, and for QoS in {0,1,2} bits 2-1 of
it are never both set. -/
theorem C18_flags_four_bits (p : Publish Props) (hq : p.QoS ≤ 3) :
    (ToControlPacket p).FixedHeader.Flags ≤ 15 ∧
    (ToControlPacket p).FixedHeader.Flags >>> 4 = 0 ∧
    (ToControlPacket p).FixedHeader.Flags &&& 0xF0 = 0 ∧
    (p.QoS ≤ 2 → ((ToControlPacket p).FixedHeader.Flags >>> 1) &&& 3 ≠ 3) := by
  obtain ⟨_, _, _, _, q, d, r⟩ := p
  simp only at hq
  interval_cases q <;> cases d <;> cases r <;>
    (refine ⟨?_, ?_, ?_, ?_⟩
     · simp only [ToControlPacket]; decide
     · simp only [ToControlPacket]; decide
     · simp only [ToControlPacket]; decide
     · simp only [ToControlPacket]; decide)

/-- Witness of C18: the packet with QoS 3, Duplicate and Retain set has the flags
byte 15, and the example packet (QoS 1) does not have bits 2-1 both set. -/
theorem C18_flags_four_bits_witness :
    (ToControlPacket
      { examplePublish with QoS := 3, Duplicate := true }).FixedHeader.Flags ≤ 15 ∧
    ((ToControlPacket examplePublish).FixedHeader.Flags >>> 1) &&& 3 ≠ 3 :=
  ⟨(C18_flags_four_bits { examplePublish with QoS := 3, Duplicate := true }
      (by decide)).1,
   (C18_flags_four_bits examplePublish (by decide)).2.2.2 (by decide)⟩

end Publish

end packets
